import Mathlib

/-
Verification of the dependent-resource watch registrar of the
operator-framework helm-operator repository, together with the
boolean-valued Helm action annotation options of
pkg/annotation/annotation.go.

The watch registrar implementation itself is not among the provided
sources; only its Ginkgo test suite is.  The registrar is therefore
modelled from the specification (sections 3, 4 and 7), except where the
repository's own tests pin a different behaviour; those places are
called out in doc comments on the affected definitions.
-/

namespace HelmOperator

/-- Modelled from the spec: the KindKey data model (section 3), a
group/version/kind triple used as the watch deduplication key. -/
structure GroupVersionKind where
  group : String
  version : String
  kind : String
deriving DecidableEq, Repr

/-- Modelled from the spec: an ObjectDescriptor (section 3) produced by
decoding one manifest document or one list item, carrying the kind key,
namespace (empty when absent), name and annotations. -/
structure ObjectDescriptor where
  gvk : GroupVersionKind
  ns : String
  name : String
  annots : List (String × String)
deriving DecidableEq, Repr

/-- Modelled from the spec: the ScopeDecision enumeration (section 3),
as reported by the mapping service for a kind. -/
inductive Scope where
  | clusterScoped
  | namespaceScoped
deriving DecidableEq, Repr

/-- Modelled from the spec: the notification Strategy enumeration
(section 3). -/
inductive Strategy where
  | ownerRefNotify
  | annotationNotify
deriving DecidableEq, Repr

/-- Modelled from the spec: the error taxonomy of section 7 that the
registrar can surface.  A manifest-parse failure carries the index of
the failing document; a kind-not-found failure carries the group, the
kind and the searched versions, as the mapping service reports them. -/
inductive ExecError where
  | manifestParse (docIndex : Nat)
  | kindNotFound (group : String) (kind : String) (versions : List String)
deriving DecidableEq, Repr

/-- Modelled from the spec: the mapping service (section 6) as a finite
table from kind keys to scopes, exactly how the test suite builds its
DefaultRESTMapper by a sequence of Add calls. -/
def RestMapper := List (GroupVersionKind × Scope)

/-- Modelled from the spec: the mapping-service lookup.  Returns the
scope registered for the kind key, or none when the mapping service
reports the kind unknown. -/
def lookupScope (rm : RestMapper) (gvk : GroupVersionKind) : Option Scope :=
  match List.find? (fun p => decide (p.1 = gvk)) rm with
  | none => none
  | some p => some p.2

/-- The well-known retention-annotation key (section 6); the test
manifests use the literal helm.sh/resource-policy. -/
def resourcePolicyKey : String := "helm.sh/resource-policy"

/-- Modelled from the spec: retention-policy detection (sections 3 and
6): the dependent is Keep exactly when its annotations map the
well-known key to the literal string keep, compared case-sensitively. -/
def containsResourcePolicyKeep (annots : List (String × String)) : Bool :=
  annots.any (fun p => decide (p.1 = resourcePolicyKey) && decide (p.2 = "keep"))

/-- Modelled from the spec: whether the dependent can carry a structural
owner reference to the owner.  The namespaced-owner rows follow the
spec (section 4.3, first bullet: a namespaced owner supports a
reference only from a namespaced dependent in the same namespace).  The
cluster-scoped-owner row follows the repository's hook tests, which pin
the owner-reference handler for every dependent of a cluster-scoped
owner, including namespace-scoped dependents in any namespace; this
diverges from the narrower rule the spec states in section 4.3. -/
def supportsOwnerRef (ownerScope : Scope) (ownerNs : String)
    (depScope : Scope) (depNs : String) : Bool :=
  match ownerScope with
  | Scope.clusterScoped => true
  | Scope.namespaceScoped =>
    match depScope with
    | Scope.clusterScoped => false
    | Scope.namespaceScoped => decide (depNs = ownerNs)

/-- Modelled from the spec: strategy selection (section 4.3 step d):
the owner-reference strategy when a structural owner reference is
supported and the retention policy is Default, the annotation strategy
otherwise. -/
def selectStrategy (ownerScope : Scope) (ownerNs : String)
    (dep : ObjectDescriptor) (depScope : Scope) : Strategy :=
  if supportsOwnerRef ownerScope ownerNs depScope dep.ns
      && !containsResourcePolicyKeep dep.annots then
    Strategy.ownerRefNotify
  else
    Strategy.annotationNotify

/-- Modelled from the spec: one decoded manifest document (section 4.1):
a single object, a List aggregate whose items field is either present
(possibly empty) or absent, or a document that fails to decode. -/
inductive Doc where
  | obj (o : ObjectDescriptor)
  | list (group : String) (version : String) (items : Option (List ObjectDescriptor))
  | malformed
deriving DecidableEq, Repr

/-- Modelled from the spec: decoding one document into descriptors
(section 4.1).  A List with a present items field expands to its items
in order.  A List whose items field is absent is not recognised as a
list and is kept as a plain object of kind List, following the
repository's errReplicaSetList test, which expects such a document to
fail later at kind resolution; this diverges from the spec, which says
an itemless List yields no descriptors and no error. -/
def decodeDoc : Doc → Option (List ObjectDescriptor)
  | Doc.obj o => some [o]
  | Doc.list _ _ (some items) => some items
  | Doc.list g v none =>
      some [ObjectDescriptor.mk (GroupVersionKind.mk g v "List") "" "" []]
  | Doc.malformed => none

/-- Modelled from the spec: decoding a manifest tail whose first
document has the given index; fails with a ManifestParseError naming
the index of the first undecodable document (section 4.1). -/
def decodeFrom : List Doc → Nat → Except ExecError (List ObjectDescriptor)
  | [], _ => Except.ok []
  | d :: ds, i =>
    match decodeDoc d with
    | none => Except.error (ExecError.manifestParse i)
    | some os =>
      match decodeFrom ds (i + 1) with
      | Except.error e => Except.error e
      | Except.ok rest => Except.ok (os ++ rest)

/-- Modelled from the spec: the manifest decoder contract of section
4.1, producing the descriptor sequence in document order with list
items expanded in place. -/
def decode (m : List Doc) : Except ExecError (List ObjectDescriptor) :=
  decodeFrom m 0

/-- Modelled from the spec: one watch registration issued to the
external controller (section 3): the kind key and the chosen
strategy. -/
structure WatchCall where
  gvk : GroupVersionKind
  strategy : Strategy
deriving DecidableEq, Repr

/-- Modelled from the spec: registering one dependent object: resolve
its scope (abort on KindNotFoundError), select the strategy against the
instance's annotations, emit exactly one watch call and mark the kind
seen (section 4.3 steps 3b to 3e). -/
def registerObj (rm : RestMapper) (sc : Scope) (ons : String)
    (o : ObjectDescriptor) (seen : List GroupVersionKind) :
    Option (WatchCall × List GroupVersionKind) × Option ExecError :=
  match lookupScope rm o.gvk with
  | none =>
      (none, some (ExecError.kindNotFound o.gvk.group o.gvk.kind [o.gvk.version]))
  | some ds =>
      (some (WatchCall.mk o.gvk (selectStrategy sc ons o ds), o.gvk :: seen), none)

/-- Processing the items of a List document.  Every item is registered
unconditionally: the repository's kind-list test expects one watch call
per item even when two items share a kind, so the seen-set is not
consulted for items (it is still extended by them, so later documents
of the same kind are skipped).  This diverges from the spec, whose
section 4.3 step 3a applies first-seen-wins to every descriptor. -/
def processItems (rm : RestMapper) (sc : Scope) (ons : String) :
    List ObjectDescriptor → List GroupVersionKind →
    List WatchCall × List GroupVersionKind × Option ExecError
  | [], seen => ([], seen, none)
  | o :: os, seen =>
    match registerObj rm sc ons o seen with
    | (none, e) => ([], seen, e)
    | (some (w, seen2), _) =>
      let r := processItems rm sc ons os seen2
      (w :: r.1, r.2.1, r.2.2)

/-- Modelled from the spec: the per-document loop of section 4.3 step
3.  A document whose own kind key is already in the seen-set is skipped
without error; an unseen single-object document is registered; an
unseen List document with a present items field has each item
registered in list order; a List document whose items field is absent
is treated as a plain object of kind List (the repository's
errReplicaSetList test expects such a document to fail kind
resolution).  A malformed document is unreachable here because Exec
decodes the manifest first; it maps to a parse error for totality.
Returns the watch calls emitted in order, the final seen-set, and the
abort error if any; calls emitted before an abort remain listed, since
the controller received them before the failure. -/
def processDocs (rm : RestMapper) (sc : Scope) (ons : String) :
    List Doc → List GroupVersionKind →
    List WatchCall × List GroupVersionKind × Option ExecError
  | [], seen => ([], seen, none)
  | Doc.malformed :: _, seen => ([], seen, some (ExecError.manifestParse 0))
  | Doc.obj o :: ds, seen =>
    if o.gvk ∈ seen then
      processDocs rm sc ons ds seen
    else
      match registerObj rm sc ons o seen with
      | (none, e) => ([], seen, e)
      | (some (w, seen2), _) =>
        let r := processDocs rm sc ons ds seen2
        (w :: r.1, r.2.1, r.2.2)
  | Doc.list g v items :: ds, seen =>
    if GroupVersionKind.mk g v "List" ∈ seen then
      processDocs rm sc ons ds seen
    else
      match items with
      | some is =>
        let r1 := processItems rm sc ons is seen
        match r1.2.2 with
        | some e => (r1.1, r1.2.1, some e)
        | none =>
          let r2 := processDocs rm sc ons ds r1.2.1
          (r1.1 ++ r2.1, r2.2.1, r2.2.2)
      | none =>
        match registerObj rm sc ons
            (ObjectDescriptor.mk (GroupVersionKind.mk g v "List") "" "" []) seen with
        | (none, e) => ([], seen, e)
        | (some (w, seen2), _) =>
          let r := processDocs rm sc ons ds seen2
          (w :: r.1, r.2.1, r.2.2)

/-- Modelled from the spec: the Exec entry point of section 4.3.  Step
1 decodes the whole manifest and aborts on decode failure, step 2
resolves the owner's scope and aborts with a KindNotFoundError when the
mapping service does not know the owner's kind, step 3 runs the
per-document loop with an empty seen-set.  Returns the watch calls
issued to the controller in order together with the abort error, if
any. -/
def Exec (rm : RestMapper) (owner : ObjectDescriptor) (manifest : List Doc) :
    List WatchCall × Option ExecError :=
  match decode manifest with
  | Except.error e => ([], some e)
  | Except.ok _ =>
    match lookupScope rm owner.gvk with
    | none =>
        ([], some (ExecError.kindNotFound owner.gvk.group owner.gvk.kind [owner.gvk.version]))
    | some sc =>
      let r := processDocs rm sc owner.ns manifest []
      (r.1, r.2.2)

/-- The sequence of first occurrences of kind keys in scan order given
an initial seen-set; stated from the deduplication rule of section 4.3
step 3a, for comparison with the emitted watch calls. -/
def firstOccurrences : List GroupVersionKind → List GroupVersionKind → List GroupVersionKind
  | [], _ => []
  | g :: gs, seen =>
    if g ∈ seen then firstOccurrences gs seen
    else g :: firstOccurrences gs (g :: seen)

end HelmOperator

namespace HelmAnnot

/-- Model of Go strconv.ParseBool as used by pkg/annotation: the listed
literals parse, everything else is a parse failure. -/
def parseBool : String → Option Bool
  | "1" | "t" | "T" | "true" | "TRUE" | "True" => some true
  | "0" | "f" | "F" | "false" | "FALSE" | "False" => some false
  | _ => none

/-- The fields of helm action.Install touched by pkg/annotation. -/
structure ActionInstall where
  disableHooks : Bool
  description : String
deriving DecidableEq, Repr

/-- The fields of helm action.Upgrade touched by pkg/annotation. -/
structure ActionUpgrade where
  disableHooks : Bool
  force : Bool
  description : String
deriving DecidableEq, Repr

/-- The fields of helm action.Uninstall touched by pkg/annotation. -/
structure ActionUninstall where
  disableHooks : Bool
  description : String
deriving DecidableEq, Repr

/-- InstallDisableHooks.InstallOption of pkg/annotation/annotation.go:
parse the value, default to false on parse failure, and return an
option function that sets DisableHooks and never fails. -/
def installDisableHooksOption (val : String) : ActionInstall → Except String ActionInstall :=
  let dh := match parseBool val with
    | some v => v
    | none => false
  fun install => Except.ok { install with disableHooks := dh }

/-- UpgradeDisableHooks.UpgradeOption of pkg/annotation/annotation.go. -/
def upgradeDisableHooksOption (val : String) : ActionUpgrade → Except String ActionUpgrade :=
  let dh := match parseBool val with
    | some v => v
    | none => false
  fun upgrade => Except.ok { upgrade with disableHooks := dh }

/-- UpgradeForce.UpgradeOption of pkg/annotation/annotation.go. -/
def upgradeForceOption (val : String) : ActionUpgrade → Except String ActionUpgrade :=
  let f := match parseBool val with
    | some v => v
    | none => false
  fun upgrade => Except.ok { upgrade with force := f }

/-- UninstallDisableHooks.UninstallOption of
pkg/annotation/annotation.go. -/
def uninstallDisableHooksOption (val : String) : ActionUninstall → Except String ActionUninstall :=
  let dh := match parseBool val with
    | some v => v
    | none => false
  fun uninstall => Except.ok { uninstall with disableHooks := dh }

/-- InstallDescription.InstallOption of pkg/annotation/annotation.go. -/
def installDescriptionOption (val : String) : ActionInstall → Except String ActionInstall :=
  fun install => Except.ok { install with description := val }

/-- UpgradeDescription.UpgradeOption of pkg/annotation/annotation.go. -/
def upgradeDescriptionOption (val : String) : ActionUpgrade → Except String ActionUpgrade :=
  fun upgrade => Except.ok { upgrade with description := val }

/-- UninstallDescription.UninstallOption of
pkg/annotation/annotation.go. -/
def uninstallDescriptionOption (val : String) : ActionUninstall → Except String ActionUninstall :=
  fun uninstall => Except.ok { uninstall with description := val }

end HelmAnnot

namespace HelmOperator

/-- Kind key of apps/v1 Deployment, as registered by the hook tests. -/
def gvkDeployment : GroupVersionKind := GroupVersionKind.mk "apps" "v1" "Deployment"

/-- Kind key of apps/v1 ReplicaSet, as registered by the hook tests. -/
def gvkReplicaSet : GroupVersionKind := GroupVersionKind.mk "apps" "v1" "ReplicaSet"

/-- Kind key of apps/v1 StatefulSet, as registered by the hook tests. -/
def gvkStatefulSet : GroupVersionKind := GroupVersionKind.mk "apps" "v1" "StatefulSet"

/-- Kind key of rbac ClusterRole, as registered by the hook tests. -/
def gvkClusterRole : GroupVersionKind :=
  GroupVersionKind.mk "rbac.authorization.k8s.io" "v1" "ClusterRole"

/-- Kind key of rbac ClusterRoleBinding, as registered by the hook
tests. -/
def gvkClusterRoleBinding : GroupVersionKind :=
  GroupVersionKind.mk "rbac.authorization.k8s.io" "v1" "ClusterRoleBinding"

/-- The mapping table the hook tests build in the known-APIs context. -/
def testMapper : RestMapper :=
  [(gvkDeployment, Scope.namespaceScoped),
   (gvkReplicaSet, Scope.namespaceScoped),
   (gvkStatefulSet, Scope.namespaceScoped),
   (gvkClusterRole, Scope.clusterScoped),
   (gvkClusterRoleBinding, Scope.clusterScoped)]

/-- The namespace-scoped Deployment owner of the hook tests. -/
def ownerDeployment : ObjectDescriptor :=
  ObjectDescriptor.mk gvkDeployment "ownerNamespace" "testDeployment" []

/-- The cluster-scoped ClusterRole owner of the hook tests. -/
def ownerClusterRole : ObjectDescriptor :=
  ObjectDescriptor.mk gvkClusterRole "" "testClusterRole" []

/-- The rsOwnerNamespace manifest fixture of the hook tests. -/
def rsOwnerNamespace : ObjectDescriptor :=
  ObjectDescriptor.mk gvkReplicaSet "ownerNamespace" "testReplicaSet" []

/-- The rsOwnerNamespaceWithKeep manifest fixture of the hook tests. -/
def rsOwnerNamespaceWithKeep : ObjectDescriptor :=
  ObjectDescriptor.mk gvkReplicaSet "ownerNamespace" "testReplicaSet"
    [(resourcePolicyKey, "keep")]

/-- The ssOtherNamespace manifest fixture of the hook tests. -/
def ssOtherNamespace : ObjectDescriptor :=
  ObjectDescriptor.mk gvkStatefulSet "otherNamespace" "otherTestStatefulSet" []

/-- The ssOtherNamespaceWithKeep manifest fixture of the hook tests. -/
def ssOtherNamespaceWithKeep : ObjectDescriptor :=
  ObjectDescriptor.mk gvkStatefulSet "otherNamespace" "otherTestStatefulSet"
    [(resourcePolicyKey, "keep")]

/-- The clusterRole manifest fixture of the hook tests. -/
def clusterRole : ObjectDescriptor :=
  ObjectDescriptor.mk gvkClusterRole "" "testClusterRole" []

/-- The clusterRoleWithKeep manifest fixture of the hook tests. -/
def clusterRoleWithKeep : ObjectDescriptor :=
  ObjectDescriptor.mk gvkClusterRole "" "testClusterRole"
    [(resourcePolicyKey, "keep")]

/-- The clusterRoleBinding manifest fixture of the hook tests. -/
def clusterRoleBinding : ObjectDescriptor :=
  ObjectDescriptor.mk gvkClusterRoleBinding "" "testClusterRoleBinding" []

/-- The clusterRoleBindingWithKeep manifest fixture of the hook tests. -/
def clusterRoleBindingWithKeep : ObjectDescriptor :=
  ObjectDescriptor.mk gvkClusterRoleBinding "" "testClusterRoleBinding"
    [(resourcePolicyKey, "keep")]

/-- The replicaSetList manifest fixture of the hook tests: a v1 List of
two ReplicaSets in the owner namespace. -/
def replicaSetList : Doc :=
  Doc.list "" "v1"
    (some [ObjectDescriptor.mk gvkReplicaSet "ownerNamespace" "testReplicaSet1" [],
           ObjectDescriptor.mk gvkReplicaSet "ownerNamespace" "testReplicaSet2" []])

/-- The errReplicaSetList manifest fixture of the hook tests: a v1 List
whose items field carries no list. -/
def errReplicaSetList : Doc := Doc.list "" "v1" none

/-- A kind key not registered in the test mapping table. -/
def gvkUnknown : GroupVersionKind := GroupVersionKind.mk "apps" "v1" "Foo"

/-- A dependent of an unknown kind, for abort scenarios. -/
def unknownDependent : ObjectDescriptor :=
  ObjectDescriptor.mk gvkUnknown "ownerNamespace" "testFoo" []

end HelmOperator


namespace HelmOperator.Facts

/-- Decoding can only fail with a manifest-parse error naming a
document index. -/
lemma decodeFrom_error_parse (m : List Doc) :
    ∀ (i : Nat) (e : ExecError), decodeFrom m i = Except.error e →
      ∃ j, e = ExecError.manifestParse j := by
  induction m with
  | nil => intro i e h; simp [decodeFrom] at h
  | cons d ds ih =>
    intro i e h
    cases hd : decodeDoc d with
    | none =>
      simp [decodeFrom, hd] at h
      exact ⟨i, h.symm⟩
    | some os =>
      cases hr : decodeFrom ds (i + 1) with
      | error e2 =>
        simp [decodeFrom, hd, hr] at h
        exact h ▸ ih (i + 1) e2 hr
      | ok rest => simp [decodeFrom, hd, hr] at h

/-- A single-object document whose kind is already seen is skipped:
same calls, same seen-set, no error. -/
lemma processDocs_skip (rm : RestMapper) (sc : Scope) (ons : String)
    (o : ObjectDescriptor) (ds : List Doc) (seen : List GroupVersionKind)
    (h : o.gvk ∈ seen) :
    processDocs rm sc ons (Doc.obj o :: ds) seen = processDocs rm sc ons ds seen := by
  simp [processDocs, h]

/-- Over a manifest of single-object documents, the emitted kind keys
are pairwise distinct, come from the documents, and avoid the initial
seen-set. -/
lemma processDocs_obj_gvks (rm : RestMapper) (sc : Scope) (ons : String)
    (os : List ObjectDescriptor) :
    ∀ (seen : List GroupVersionKind),
      (((processDocs rm sc ons (os.map Doc.obj) seen).1).map WatchCall.gvk).Nodup ∧
      (∀ g ∈ ((processDocs rm sc ons (os.map Doc.obj) seen).1).map WatchCall.gvk,
        g ∈ os.map ObjectDescriptor.gvk ∧ g ∉ seen) := by
  induction os with
  | nil => intro seen; simp [processDocs]
  | cons o os ih =>
    intro seen
    by_cases h : o.gvk ∈ seen
    · have ihs := ih seen
      simp only [List.map_cons, processDocs, if_pos h]
      refine ⟨ihs.1, fun g hg => ?_⟩
      obtain ⟨h1, h2⟩ := ihs.2 g hg
      exact ⟨List.mem_cons_of_mem _ h1, h2⟩
    · cases hl : lookupScope rm o.gvk with
      | none => simp [processDocs, if_neg h, registerObj, hl]
      | some dsc =>
        have ihs := ih (o.gvk :: seen)
        simp only [List.map_cons, processDocs, if_neg h, registerObj, hl, List.map]
        constructor
        · refine List.nodup_cons.mpr ⟨fun hmem => ?_, ihs.1⟩
          have := (ihs.2 _ hmem).2
          exact this (List.mem_cons_self _ _)
        · intro g hg
          rcases List.mem_cons.mp hg with hg | hg
          · subst hg
            exact ⟨List.mem_cons_self _ _, h⟩
          · obtain ⟨h1, h2⟩ := ihs.2 g hg
            exact ⟨List.mem_cons_of_mem _ h1,
              fun hin => h2 (List.mem_cons_of_mem _ hin)⟩

/-- Over a manifest of single-object documents that processes without
error, the emitted kind keys are exactly the first occurrences of the
documents' kind keys in scan order. -/
lemma processDocs_obj_firstOcc (rm : RestMapper) (sc : Scope) (ons : String)
    (os : List ObjectDescriptor) :
    ∀ (seen : List GroupVersionKind),
      (processDocs rm sc ons (os.map Doc.obj) seen).2.2 = none →
      ((processDocs rm sc ons (os.map Doc.obj) seen).1).map WatchCall.gvk =
        firstOccurrences (os.map ObjectDescriptor.gvk) seen := by
  induction os with
  | nil => intro seen _; simp [processDocs, firstOccurrences]
  | cons o os ih =>
    intro seen hnoerr
    by_cases h : o.gvk ∈ seen
    · simp only [List.map_cons, processDocs, if_pos h, firstOccurrences] at hnoerr ⊢
      exact ih seen hnoerr
    · cases hl : lookupScope rm o.gvk with
      | none =>
        simp only [List.map_cons, processDocs, if_neg h, registerObj, hl] at hnoerr
        simp at hnoerr
      | some dsc =>
        simp only [List.map_cons, processDocs, if_neg h, registerObj, hl,
          List.map] at hnoerr ⊢
        rw [firstOccurrences, if_neg h]
        exact congrArg _ (ih (o.gvk :: seen) hnoerr)

/-- Appending manifests: when the first part processes without error,
processing the concatenation runs the second part from the first
part's final seen-set, and the emitted calls concatenate. -/
lemma processDocs_append (rm : RestMapper) (sc : Scope) (ons : String)
    (ds₁ : List Doc) :
    ∀ (ds₂ : List Doc) (seen seen1 : List GroupVersionKind) (w : List WatchCall),
      processDocs rm sc ons ds₁ seen = (w, seen1, none) →
      processDocs rm sc ons (ds₁ ++ ds₂) seen =
        (w ++ (processDocs rm sc ons ds₂ seen1).1,
         (processDocs rm sc ons ds₂ seen1).2.1,
         (processDocs rm sc ons ds₂ seen1).2.2) := by
  induction ds₁ with
  | nil =>
    intro ds₂ seen seen1 w h
    simp only [processDocs, Prod.mk.injEq] at h
    obtain ⟨rfl, rfl, -⟩ := h
    simp only [List.nil_append]
  | cons d ds ih =>
    intro ds₂ seen seen1 w h
    cases d with
    | malformed => simp [processDocs] at h
    | obj o =>
      by_cases hmem : o.gvk ∈ seen
      · rw [processDocs_skip rm sc ons o ds seen hmem] at h
        rw [List.cons_append, processDocs_skip rm sc ons o (ds ++ ds₂) seen hmem]
        exact ih ds₂ seen seen1 w h
      · cases hl : lookupScope rm o.gvk with
        | none => simp [processDocs, if_neg hmem, registerObj, hl] at h
        | some dsc =>
          rcases hr : processDocs rm sc ons ds (o.gvk :: seen) with ⟨w0, s0, e0⟩
          simp only [processDocs, if_neg hmem, registerObj, hl, hr,
            Prod.mk.injEq] at h
          obtain ⟨rfl, rfl, rfl⟩ := h
          rw [List.cons_append]
          simp only [processDocs, if_neg hmem, registerObj, hl,
            ih ds₂ (o.gvk :: seen) s0 w0 hr, List.cons_append]
    | list g v items =>
      by_cases hmem : GroupVersionKind.mk g v "List" ∈ seen
      · simp only [processDocs, if_pos hmem] at h
        rw [List.cons_append]
        simp only [processDocs, if_pos hmem]
        exact ih ds₂ seen seen1 w h
      · cases items with
        | none =>
          cases hl : lookupScope rm (GroupVersionKind.mk g v "List") with
          | none => simp [processDocs, if_neg hmem, registerObj, hl] at h
          | some dsc =>
            rcases hr : processDocs rm sc ons ds
                (GroupVersionKind.mk g v "List" :: seen) with ⟨w0, s0, e0⟩
            simp only [processDocs, if_neg hmem, registerObj, hl, hr,
              Prod.mk.injEq] at h
            obtain ⟨rfl, rfl, rfl⟩ := h
            rw [List.cons_append]
            simp only [processDocs, if_neg hmem, registerObj, hl,
              ih ds₂ (GroupVersionKind.mk g v "List" :: seen) s0 w0 hr,
              List.cons_append]
        | some is =>
          rcases hi : processItems rm sc ons is seen with ⟨wI, sI, eI⟩
          cases eI with
          | some e => simp [processDocs, if_neg hmem, hi] at h
          | none =>
            rcases hr : processDocs rm sc ons ds sI with ⟨w0, s0, e0⟩
            simp only [processDocs, if_neg hmem, hi, hr, Prod.mk.injEq] at h
            obtain ⟨rfl, rfl, rfl⟩ := h
            rw [List.cons_append]
            simp only [processDocs, if_neg hmem, hi,
              ih ds₂ sI s0 w0 hr, List.append_assoc]

end HelmOperator.Facts

namespace HelmOperator

/-- The empty mapping table of the unknown-APIs test context. -/
def emptyMapper : RestMapper := []

/-- Decoding a manifest of single-object documents always succeeds and
yields exactly those objects. -/
lemma Facts.decodeFrom_objs (os : List ObjectDescriptor) :
    ∀ (i : Nat), decodeFrom (os.map Doc.obj) i = Except.ok os := by
  induction os with
  | nil => intro i; simp [decodeFrom]
  | cons o os ih => intro i; simp [decodeFrom, decodeDoc, ih (i + 1)]

end HelmOperator

namespace HelmOperator.Claims

/-- C1, counterexample: on the cluster-scoped ClusterRole owner of the
hook tests and the other-namespace StatefulSet dependent with Default
retention policy, Exec selects OwnerReferenceNotify, not the
AnnotationNotify the claim states. -/
theorem c1_clusterOwnerNamespacedDep_counterexample :
    Exec testMapper ownerClusterRole [Doc.obj ssOtherNamespace] =
      ([WatchCall.mk gvkStatefulSet Strategy.ownerRefNotify], none) ∧
    Strategy.ownerRefNotify ≠ Strategy.annotationNotify := by
  decide

/-- C1, amended: for every NamespaceScoped dependent under a
ClusterScoped owner whose RetentionPolicy is Default, Exec selects the
OwnerReferenceNotify strategy for the dependent's kind, regardless of
the dependent's namespace value. -/
theorem c1_clusterOwnerNamespacedDep_amended (rm : RestMapper)
    (owner dep : ObjectDescriptor)
    (howner : lookupScope rm owner.gvk = some Scope.clusterScoped)
    (hdep : lookupScope rm dep.gvk = some Scope.namespaceScoped)
    (hkeep : containsResourcePolicyKeep dep.annots = false) :
    Exec rm owner [Doc.obj dep] =
      ([WatchCall.mk dep.gvk Strategy.ownerRefNotify], none) := by
  simp [Exec, decode, decodeFrom, decodeDoc, processDocs, registerObj,
    selectStrategy, supportsOwnerRef, howner, hdep, hkeep]

/-- C1, witness: the amended statement at the hook tests' cluster-scoped
owner and other-namespace StatefulSet. -/
theorem c1_clusterOwnerNamespacedDep_witness :
    Exec testMapper ownerClusterRole [Doc.obj ssOtherNamespace] =
      ([WatchCall.mk gvkStatefulSet Strategy.ownerRefNotify], none) :=
  c1_clusterOwnerNamespacedDep_amended testMapper ownerClusterRole ssOtherNamespace
    (by decide) (by decide) (by decide)

/-- C2, counterexample: the hook tests' replicaSetList manifest holds
two objects of one single kind, yet a successful Exec issues two watch
calls, so the at-most-K bound fails: List items bypass the seen-set. -/
theorem c2_listItemsBypassDedup_counterexample :
    (Exec testMapper ownerDeployment [replicaSetList]).2 = none ∧
    (Exec testMapper ownerDeployment [replicaSetList]).1.length = 2 ∧
    (((decode [replicaSetList]).toOption.getD []).map ObjectDescriptor.gvk).dedup.length
      = 1 := by
  decide

/-- C2, amended: deduplication is per document kind: over a manifest of
single-object documents the emitted kinds are pairwise distinct and at
most one watch call is issued per distinct kind, and a single-object
document whose kind is already in the seen-set is skipped without
error and without a second registration.  Items of a List document,
in contrast, are each registered even when their kind repeats. -/
theorem c2_dedupPerDocument_amended (rm : RestMapper) (owner : ObjectDescriptor)
    (os : List ObjectDescriptor) :
    ((Exec rm owner (os.map Doc.obj)).1.map WatchCall.gvk).Nodup ∧
    (Exec rm owner (os.map Doc.obj)).1.length ≤
      (os.map ObjectDescriptor.gvk).dedup.length ∧
    (∀ (sc : Scope) (ons : String) (o : ObjectDescriptor) (ds : List Doc)
        (seen : List GroupVersionKind), o.gvk ∈ seen →
      processDocs rm sc ons (Doc.obj o :: ds) seen = processDocs rm sc ons ds seen) := by
  cases hl : lookupScope rm owner.gvk with
  | none =>
    refine ⟨?_, ?_, fun sc ons o ds seen h => Facts.processDocs_skip rm sc ons o ds seen h⟩ <;>
      simp [Exec, decode, Facts.decodeFrom_objs, hl]
  | some sc =>
    have hg := Facts.processDocs_obj_gvks rm sc owner.ns os []
    have hExec : (Exec rm owner (os.map Doc.obj)).1 =
        (processDocs rm sc owner.ns (os.map Doc.obj) []).1 := by
      simp [Exec, decode, Facts.decodeFrom_objs, hl]
    refine ⟨?_, ?_, fun sc2 ons o ds seen h => Facts.processDocs_skip rm sc2 ons o ds seen h⟩
    · rw [hExec]; exact hg.1
    · rw [hExec]
      have hsub : ((processDocs rm sc owner.ns (os.map Doc.obj) []).1.map WatchCall.gvk) ⊆
          (os.map ObjectDescriptor.gvk).dedup := by
        intro g hgmem
        exact List.mem_dedup.mpr ((hg.2 g hgmem).1)
      have hlen := (List.subperm_of_subset hg.1 hsub).length_le
      simpa using hlen

/-- C2, witness: the amended statement at the hook tests' deduplication
manifest of four documents over two kinds, and the skip clause at a
seen ReplicaSet kind. -/
theorem c2_dedupPerDocument_witness :
    ((Exec testMapper ownerClusterRole
        ([clusterRole, clusterRole, rsOwnerNamespace, rsOwnerNamespace].map Doc.obj)).1.map
      WatchCall.gvk).Nodup ∧
    (Exec testMapper ownerClusterRole
        ([clusterRole, clusterRole, rsOwnerNamespace, rsOwnerNamespace].map Doc.obj)).1.length ≤
      (([clusterRole, clusterRole, rsOwnerNamespace, rsOwnerNamespace].map
        ObjectDescriptor.gvk)).dedup.length ∧
    processDocs testMapper Scope.clusterScoped "" [Doc.obj rsOwnerNamespace] [gvkReplicaSet] =
      processDocs testMapper Scope.clusterScoped "" [] [gvkReplicaSet] := by
  have h := c2_dedupPerDocument_amended testMapper ownerClusterRole
    [clusterRole, clusterRole, rsOwnerNamespace, rsOwnerNamespace]
  exact ⟨h.1, h.2.1, h.2.2 Scope.clusterScoped "" rsOwnerNamespace [] [gvkReplicaSet] (by decide)⟩

/-- C3, counterexample: the hook tests' errReplicaSetList document (kind
List, items field absent) makes Exec fail with a KindNotFoundError for
kind List, where the claim states success with zero registrations. -/
theorem c3_itemlessList_counterexample :
    Exec testMapper ownerDeployment [errReplicaSetList] =
      ([], some (ExecError.kindNotFound "" "List" ["v1"])) := by
  decide

/-- C3, amended: when the owner's kind resolves, a literally empty
manifest and a List document with a present but empty items array both
yield zero registrations and no error; a List document whose items
field is absent, however, is treated as a plain object of kind List and
fails kind resolution when no kind List is registered. -/
theorem c3_emptyListManifests_amended (rm : RestMapper) (owner : ObjectDescriptor)
    (sc : Scope) (g v : String)
    (howner : lookupScope rm owner.gvk = some sc)
    (hlist : lookupScope rm (GroupVersionKind.mk g v "List") = none) :
    Exec rm owner [] = ([], none) ∧
    Exec rm owner [Doc.list g v (some [])] = ([], none) ∧
    Exec rm owner [Doc.list g v none] =
      ([], some (ExecError.kindNotFound g "List" [v])) := by
  refine ⟨?_, ?_, ?_⟩ <;>
    simp [Exec, decode, decodeFrom, decodeDoc, processDocs, processItems,
      registerObj, howner, hlist]

/-- C3, witness: the amended statement at the hook tests' mapper,
namespaced Deployment owner and v1 List kind key. -/
theorem c3_emptyListManifests_witness :
    Exec testMapper ownerDeployment [] = ([], none) ∧
    Exec testMapper ownerDeployment [Doc.list "" "v1" (some [])] = ([], none) ∧
    Exec testMapper ownerDeployment [Doc.list "" "v1" none] =
      ([], some (ExecError.kindNotFound "" "List" ["v1"])) :=
  c3_emptyListManifests_amended testMapper ownerDeployment Scope.namespaceScoped "" "v1"
    (by decide) (by decide)

/-- C4: a dependent whose annotations map the well-known
resource-policy key to the literal keep always gets the
AnnotationNotify strategy, for every owner scope, dependent scope and
namespace value; and the comparison is case-sensitive: any other value
on the key, near-matches included, counts as Default. -/
theorem c4_keepAnnotationStrategy :
    (∀ (rm : RestMapper) (owner dep : ObjectDescriptor) (so ds : Scope),
      lookupScope rm owner.gvk = some so →
      lookupScope rm dep.gvk = some ds →
      (resourcePolicyKey, "keep") ∈ dep.annots →
      Exec rm owner [Doc.obj dep] =
        ([WatchCall.mk dep.gvk Strategy.annotationNotify], none)) ∧
    (∀ v : String, v ≠ "keep" →
      containsResourcePolicyKeep [(resourcePolicyKey, v)] = false) := by
  constructor
  · intro rm owner dep so ds howner hdep hmem
    have hkeep : containsResourcePolicyKeep dep.annots = true := by
      simp only [containsResourcePolicyKeep, List.any_eq_true]
      exact ⟨(resourcePolicyKey, "keep"), hmem, by simp⟩
    simp [Exec, decode, decodeFrom, decodeDoc, processDocs, registerObj,
      selectStrategy, howner, hdep, hkeep]
  · intro v hv
    simp [containsResourcePolicyKeep, hv]

/-- C4, witness: the keep-carrying ClusterRoleBinding of the hook tests
under the cluster-scoped owner gets AnnotationNotify, and the
near-match value Keep does not count as the keep policy. -/
theorem c4_keepAnnotationStrategy_witness :
    Exec testMapper ownerClusterRole [Doc.obj clusterRoleBindingWithKeep] =
      ([WatchCall.mk gvkClusterRoleBinding Strategy.annotationNotify], none) ∧
    containsResourcePolicyKeep [(resourcePolicyKey, "Keep")] = false :=
  ⟨c4_keepAnnotationStrategy.1 testMapper ownerClusterRole clusterRoleBindingWithKeep
      Scope.clusterScoped Scope.clusterScoped (by decide) (by decide) (by decide),
   c4_keepAnnotationStrategy.2 "Keep" (by decide)⟩

/-- C5: when the manifest decodes but the owner's kind is not
resolvable, Exec returns the KindNotFoundError carrying the owner's
group, kind and searched version, and no watch call is issued. -/
theorem c5_unknownOwnerKind (rm : RestMapper) (owner : ObjectDescriptor)
    (m : List Doc) (os : List ObjectDescriptor)
    (hdec : decode m = Except.ok os)
    (howner : lookupScope rm owner.gvk = none) :
    Exec rm owner m =
      ([], some (ExecError.kindNotFound owner.gvk.group owner.gvk.kind
        [owner.gvk.version])) := by
  simp [Exec, hdec, howner]

/-- C5, witness: the unknown-APIs test scenario: empty mapper,
Deployment owner, ReplicaSet manifest. -/
theorem c5_unknownOwnerKind_witness :
    Exec emptyMapper ownerDeployment [Doc.obj rsOwnerNamespace] =
      ([], some (ExecError.kindNotFound "apps" "Deployment" ["v1"])) :=
  c5_unknownOwnerKind emptyMapper ownerDeployment [Doc.obj rsOwnerNamespace]
    [rsOwnerNamespace] (by rfl) (by decide)

/-- C6: when an unseen dependent kind is not resolvable, Exec aborts
the whole call with the KindNotFoundError for that kind, no
registration is attempted for later objects, and the watch calls
already issued for the earlier documents remain issued. -/
theorem c6_abortKeepsEarlierWatches (rm : RestMapper) (owner : ObjectDescriptor)
    (ds₁ ds₂ : List Doc) (o : ObjectDescriptor) (sc : Scope)
    (w : List WatchCall) (seen1 : List GroupVersionKind)
    (os : List ObjectDescriptor)
    (hdec : decode (ds₁ ++ Doc.obj o :: ds₂) = Except.ok os)
    (howner : lookupScope rm owner.gvk = some sc)
    (hpre : processDocs rm sc owner.ns ds₁ [] = (w, seen1, none))
    (hseen : o.gvk ∉ seen1)
    (hunk : lookupScope rm o.gvk = none) :
    Exec rm owner (ds₁ ++ Doc.obj o :: ds₂) =
      (w, some (ExecError.kindNotFound o.gvk.group o.gvk.kind [o.gvk.version])) := by
  have happ := Facts.processDocs_append rm sc owner.ns ds₁ (Doc.obj o :: ds₂) [] seen1 w hpre
  simp [Exec, hdec, howner, happ, processDocs, if_neg hseen, registerObj, hunk]

/-- C6, witness: the known-APIs mapper, namespaced owner, a ClusterRole
document already registered, then an unknown Foo kind: Exec aborts
with the Foo KindNotFoundError and the ClusterRole watch remains. -/
theorem c6_abortKeepsEarlierWatches_witness :
    Exec testMapper ownerDeployment ([Doc.obj clusterRole] ++ Doc.obj unknownDependent :: []) =
      ([WatchCall.mk gvkClusterRole Strategy.annotationNotify],
       some (ExecError.kindNotFound "apps" "Foo" ["v1"])) :=
  c6_abortKeepsEarlierWatches testMapper ownerDeployment [Doc.obj clusterRole] []
    unknownDependent Scope.namespaceScoped
    [WatchCall.mk gvkClusterRole Strategy.annotationNotify] [gvkClusterRole]
    [clusterRole, unknownDependent]
    (by rfl) (by decide) (by decide) (by decide) (by decide)

/-- C7: under a NamespaceScoped owner, a NamespaceScoped dependent in
the owner's namespace with Default policy gets OwnerReferenceNotify, a
ClusterScoped dependent gets AnnotationNotify, and with both present
Exec issues exactly those two registrations in order. -/
theorem c7_namespacedOwnerPair (rm : RestMapper) (owner rs cr : ObjectDescriptor)
    (howner : lookupScope rm owner.gvk = some Scope.namespaceScoped)
    (hrs : lookupScope rm rs.gvk = some Scope.namespaceScoped)
    (hns : rs.ns = owner.ns)
    (hrskeep : containsResourcePolicyKeep rs.annots = false)
    (hcr : lookupScope rm cr.gvk = some Scope.clusterScoped)
    (hcrkeep : containsResourcePolicyKeep cr.annots = false)
    (hne : rs.gvk ≠ cr.gvk) :
    Exec rm owner [Doc.obj rs, Doc.obj cr] =
      ([WatchCall.mk rs.gvk Strategy.ownerRefNotify,
        WatchCall.mk cr.gvk Strategy.annotationNotify], none) := by
  have hne2 := Ne.symm hne
  simp [Exec, decode, decodeFrom, decodeDoc, processDocs, registerObj,
    selectStrategy, supportsOwnerRef, howner, hrs, hcr, hrskeep, hcrkeep, hns, hne2]

/-- C7, witness: the hook tests' namespaced Deployment owner with the
same-namespace ReplicaSet and the ClusterRole. -/
theorem c7_namespacedOwnerPair_witness :
    Exec testMapper ownerDeployment [Doc.obj rsOwnerNamespace, Doc.obj clusterRole] =
      ([WatchCall.mk gvkReplicaSet Strategy.ownerRefNotify,
        WatchCall.mk gvkClusterRole Strategy.annotationNotify], none) :=
  c7_namespacedOwnerPair testMapper ownerDeployment rsOwnerNamespace clusterRole
    (by decide) (by decide) (by decide) (by decide) (by decide) (by decide) (by decide)

/-- C8: when any document fails to decode, the whole Exec call fails
with that decode error, the error is a ManifestParseError, and no watch
registration is issued. -/
theorem c8_parseErrorAbortsAll (rm : RestMapper) (owner : ObjectDescriptor)
    (m : List Doc) (e : ExecError)
    (hdec : decode m = Except.error e) :
    Exec rm owner m = ([], some e) ∧ ∃ i, e = ExecError.manifestParse i := by
  exact ⟨by simp [Exec, hdec], Facts.decodeFrom_error_parse m 0 e hdec⟩

/-- C8, witness: the invalid-manifest test scenario: a malformed
document under the empty mapper. -/
theorem c8_parseErrorAbortsAll_witness :
    Exec emptyMapper ownerDeployment [Doc.malformed] =
      ([], some (ExecError.manifestParse 0)) ∧
    ∃ i, ExecError.manifestParse 0 = ExecError.manifestParse i :=
  c8_parseErrorAbortsAll emptyMapper ownerDeployment [Doc.malformed]
    (ExecError.manifestParse 0) (by rfl)

/-- C9, counterexample: on the hook tests' replicaSetList manifest a
successful Exec issues two watch calls for the single distinct kind
among the decoded descriptors, so the i-th call cannot correspond to
the i-th distinct kind. -/
theorem c9_listItemsOrder_counterexample :
    (Exec testMapper ownerDeployment [replicaSetList]).2 = none ∧
    (Exec testMapper ownerDeployment [replicaSetList]).1.map WatchCall.gvk =
      [gvkReplicaSet, gvkReplicaSet] ∧
    firstOccurrences
      (((decode [replicaSetList]).toOption.getD []).map ObjectDescriptor.gvk) [] =
      [gvkReplicaSet] := by
  decide

/-- C9, amended: over a manifest of single-object documents, a
successful Exec issues its watch calls exactly in the order of each
kind's first occurrence in the manifest; items of a List document,
in contrast, are each registered in list order even when kinds
repeat. -/
theorem c9_firstOccurrenceOrder_amended (rm : RestMapper) (owner : ObjectDescriptor)
    (os : List ObjectDescriptor) (sc : Scope)
    (howner : lookupScope rm owner.gvk = some sc)
    (hok : (Exec rm owner (os.map Doc.obj)).2 = none) :
    (Exec rm owner (os.map Doc.obj)).1.map WatchCall.gvk =
      firstOccurrences (os.map ObjectDescriptor.gvk) [] := by
  have hExec1 : (Exec rm owner (os.map Doc.obj)).1 =
      (processDocs rm sc owner.ns (os.map Doc.obj) []).1 := by
    simp [Exec, decode, Facts.decodeFrom_objs, howner]
  have hExec2 : (Exec rm owner (os.map Doc.obj)).2 =
      (processDocs rm sc owner.ns (os.map Doc.obj) []).2.2 := by
    simp [Exec, decode, Facts.decodeFrom_objs, howner]
  rw [hExec1]
  exact Facts.processDocs_obj_firstOcc rm sc owner.ns os [] (hExec2 ▸ hok)

/-- C9, witness: the amended statement at the hook tests' four-document
deduplication manifest. -/
theorem c9_firstOccurrenceOrder_witness :
    (Exec testMapper ownerClusterRole
        ([clusterRole, clusterRole, rsOwnerNamespace, rsOwnerNamespace].map Doc.obj)).1.map
      WatchCall.gvk =
      firstOccurrences
        ([clusterRole, clusterRole, rsOwnerNamespace, rsOwnerNamespace].map
          ObjectDescriptor.gvk) [] :=
  c9_firstOccurrenceOrder_amended testMapper ownerClusterRole
    [clusterRole, clusterRole, rsOwnerNamespace, rsOwnerNamespace] Scope.clusterScoped
    (by decide) (by decide)

/-- C10: for each boolean-valued action annotation option, a value that
does not parse as a boolean is silently treated as false: the returned
option function succeeds and sets the corresponding field to false. -/
theorem c10_boolOptionsDefaultFalse (val : String)
    (i : HelmAnnot.ActionInstall) (u : HelmAnnot.ActionUpgrade)
    (x : HelmAnnot.ActionUninstall)
    (h : HelmAnnot.parseBool val = none) :
    HelmAnnot.installDisableHooksOption val i =
      Except.ok { i with disableHooks := false } ∧
    HelmAnnot.upgradeDisableHooksOption val u =
      Except.ok { u with disableHooks := false } ∧
    HelmAnnot.upgradeForceOption val u =
      Except.ok { u with force := false } ∧
    HelmAnnot.uninstallDisableHooksOption val x =
      Except.ok { x with disableHooks := false } := by
  simp [HelmAnnot.installDisableHooksOption,
    HelmAnnot.upgradeDisableHooksOption,
    HelmAnnot.upgradeForceOption,
    HelmAnnot.uninstallDisableHooksOption, h]

/-- C10, witness: the unparsable value foobar resets every boolean
option field to false on concrete action configurations. -/
theorem c10_boolOptionsDefaultFalse_witness :
    HelmAnnot.installDisableHooksOption "foobar"
        (HelmAnnot.ActionInstall.mk true "a") =
      Except.ok (HelmAnnot.ActionInstall.mk false "a") ∧
    HelmAnnot.upgradeDisableHooksOption "foobar"
        (HelmAnnot.ActionUpgrade.mk true true "b") =
      Except.ok (HelmAnnot.ActionUpgrade.mk false true "b") ∧
    HelmAnnot.upgradeForceOption "foobar"
        (HelmAnnot.ActionUpgrade.mk true true "b") =
      Except.ok (HelmAnnot.ActionUpgrade.mk true false "b") ∧
    HelmAnnot.uninstallDisableHooksOption "foobar"
        (HelmAnnot.ActionUninstall.mk true "c") =
      Except.ok (HelmAnnot.ActionUninstall.mk false "c") :=
  c10_boolOptionsDefaultFalse "foobar" (HelmAnnot.ActionInstall.mk true "a")
    (HelmAnnot.ActionUpgrade.mk true true "b")
    (HelmAnnot.ActionUninstall.mk true "c") (by decide)

end HelmOperator.Claims
